import Mathlib

/-! Verification of the feature-scoring core of the `spotify-audio-features`
repository (`backend/features.py`, class `AudioFeatureExtractor`).

Modelling conventions:
* Python/NumPy floats are modelled as rationals (`ℚ`); every quantity a
  claim ranges over is assumed finite and non-NaN, as the claims state.
* `np.mean` of an empty array yields NaN in NumPy; we model a possibly-NaN
  float mean as `Option ℚ` (`none` = NaN) in `np_mean`, and NaN propagation
  through arithmetic as `Option` propagation.  In `_calculate_valence` the
  comparison `h_energy + p_energy > 0` is False on NaN (IEEE), so a NaN
  mean falls into the `ratio = 0.5` branch exactly as in the source.
* For the degenerate-range question about `_normalize` (division by zero),
  rationals are too coarse: we add a four-value float model `FloatV`
  (finite / NaN / +inf / -inf) and a second embedding `normalizeF` of the
  same source line with IEEE division-by-zero and clip semantics.
* The DSP library (librosa) is an external collaborator; its primitives are
  parameters gathered in structure `DSP`, and `extract_features` is the
  orchestrator over them, exactly following the source control flow.
-/

namespace SpotifyAudioFeatures

/-- `np.clip(x, lo, hi)` for scalars: `min (max x lo) hi`. -/
def np_clip (x lo hi : ℚ) : ℚ := min (max x lo) hi

/-- Total arithmetic mean (sum divided by length); equals the NumPy mean on
nonempty lists.  (On `[]` it is `0/0 = 0` in `ℚ`; it is only ever used where
the list is nonempty, `np_mean` handles the empty case faithfully.) -/
def listMean (xs : List ℚ) : ℚ := xs.sum / (xs.length : ℚ)

/-- `np.mean`: NaN (modelled `none`) on an empty array, else the mean. -/
def np_mean (xs : List ℚ) : Option ℚ :=
  if xs.isEmpty then none else some (listMean xs)

/-- `np.var` (population variance, ddof=0): mean squared deviation. -/
def np_var (xs : List ℚ) : ℚ :=
  listMean (xs.map (fun x => (x - listMean xs) ^ 2))

/-- `np.diff` on an integer index array: consecutive differences. -/
def np_diff (xs : List ℕ) : List ℤ :=
  List.zipWith (fun a b => (b : ℤ) - (a : ℤ)) xs xs.tail

/-- `np.argmax`: index of the first maximal element (0 on `[]`, unused). -/
def np_argmax (xs : List ℚ) : ℕ :=
  (xs.enum.foldl (fun acc p => if acc.2 < p.2 then p else acc)
    ((0 : ℕ), xs.headD 0)).1

/-- `np.roll(xs, -t)`: left rotation, `result[i] = xs[(i + t) % len xs]`. -/
def np_roll_neg (xs : List ℚ) (t : ℕ) : List ℚ :=
  (List.range xs.length).map (fun i => xs.getD ((i + t) % xs.length) 0)

/-- `_normalize` (features.py line 61):
`np.clip((value - min_val) / (max_val - min_val), 0, 1)`. -/
def _normalize (value min_val max_val : ℚ) : ℚ :=
  np_clip ((value - min_val) / (max_val - min_val)) 0 1

/-- `_calculate_energy` (features.py lines 63-74): weighted sum of the
normalized means of RMS, spectral centroid and onset envelope.  A NaN mean
(empty series) propagates through `_normalize` and the sum, so the result
is `none` (NaN) whenever one of the series is empty. -/
def _calculate_energy (rms spec_cent onset_env : List ℚ) : Option ℚ :=
  match np_mean rms, np_mean spec_cent, np_mean onset_env with
  | some m_rms, some m_cent, some m_onset =>
      some (_normalize m_rms 0 0.3 * 0.5 + _normalize m_cent 500 4000 * 0.25
        + _normalize m_onset 0 1.5 * 0.25)
  | _, _, _ => none

/-- Tempo bucket factor inside `_calculate_danceability`
(features.py lines 90-96). -/
def tempo_factor (tempo : ℚ) : ℚ :=
  if tempo < 50 ∨ 200 < tempo then 0.5
  else if 90 ≤ tempo ∧ tempo ≤ 140 then 1
  else 0.8

/-- `_calculate_danceability` (features.py lines 76-99).  `onset_env[beat_frames]`
is NumPy fancy indexing; the data model guarantees beat frames index into the
envelope, out-of-range access (an IndexError in NumPy) is modelled by `getD 0`. -/
def _calculate_danceability (onset_env : List ℚ) (beat_frames : List ℕ)
    (tempo : ℚ) : ℚ :=
  if beat_frames.length < 2 then 0
  else
    _normalize (listMean (beat_frames.map (fun i => onset_env.getD i 0))) 0 3 * 0.4
    + 1 / (1 + np_var ((np_diff beat_frames).map (fun z => (z : ℚ))) / 50) * 0.4
    + tempo_factor tempo * 0.2

/-- `_calculate_acousticness` combination formula on the two means
(features.py lines 101-113). -/
def acousticness_of_means (m_flat m_roll : ℚ) : ℚ :=
  (1 - _normalize m_flat 0 0.1) * 0.6 + (1 - _normalize m_roll 1000 7000) * 0.4

/-- `_calculate_acousticness` (features.py lines 101-113); NaN means (empty
series) propagate to a NaN score. -/
def _calculate_acousticness (spec_flat spec_roll : List ℚ) : Option ℚ :=
  match np_mean spec_flat, np_mean spec_roll with
  | some mf, some mr => some (acousticness_of_means mf mr)
  | _, _ => none

/-- Mode estimation inside `_calculate_valence` (features.py lines 116-129):
sum chroma per pitch class, rotate the tonic (argmax) to position 0, compare
offset 4 (major third) with offset 3 (minor third). -/
def mode_score (chroma : List (List ℚ)) : ℚ :=
  let chroma_sum := chroma.map List.sum
  let chroma_rotated := np_roll_neg chroma_sum (np_argmax chroma_sum)
  let major_strength := chroma_rotated.getD 4 0
  let minor_strength := chroma_rotated.getD 3 0
  if major_strength > minor_strength then 0.75 else 0.35

/-- Harmonic/percussive ratio on two finite mean energies
(features.py lines 142-145). -/
def hp_ratio (h_energy p_energy : ℚ) : ℚ :=
  if h_energy + p_energy > 0 then h_energy / (h_energy + p_energy) else 0.5

/-- The ratio as computed from the two RMS series.  If a mean is NaN
(empty series) the IEEE comparison `h_energy + p_energy > 0` is False,
so the source falls into the `ratio = 0.5` branch. -/
def ratio_of (h_rms p_rms : List ℚ) : ℚ :=
  match np_mean h_rms, np_mean p_rms with
  | some h_energy, some p_energy => hp_ratio h_energy p_energy
  | _, _ => 0.5

/-- `_calculate_valence` (features.py lines 115-146), taking the collaborator
outputs (chroma matrix of the harmonic part, RMS series of the harmonic and
percussive parts) as inputs. -/
def _calculate_valence (chroma : List (List ℚ)) (h_rms p_rms : List ℚ) : ℚ :=
  np_clip (mode_score chroma * 0.7 + ratio_of h_rms p_rms * 0.3) 0 1

/-- The five-field result record assembled by `extract_features`
(features.py lines 52-58).  `energy` and `acousticness` can be NaN floats
(empty measurement series), modelled as `Option ℚ`. -/
structure AnalysisResult where
  energy : Option ℚ
  danceability : ℚ
  tempo : ℚ
  acousticness : Option ℚ
  valence : ℚ
deriving DecidableEq

/-- The external DSP collaborator (librosa), out of scope per the spec:
its primitives are opaque parameters.  `load` returns `none` exactly when
decoding fails (the `except` branch of the source). -/
structure DSP where
  load : String → Option (List ℚ × ℕ)
  onset_strength : List ℚ → ℕ → List ℚ
  beat_track : List ℚ → ℕ → List ℚ → ℚ × List ℕ
  rms : List ℚ → List ℚ
  spectral_centroid : List ℚ → ℕ → List ℚ
  spectral_flatness : List ℚ → List ℚ
  spectral_rolloff : List ℚ → ℕ → List ℚ
  hpss : List ℚ → List ℚ × List ℚ
  chroma_cqt : List ℚ → ℕ → List (List ℚ)

/-- `extract_features` (features.py lines 9-58): decode, compute the raw
measurements through the collaborator, run the four scorers, assemble the
record; `none` exactly on decode failure (the source returns `None` there). -/
def extract_features (dsp : DSP) (file_path : String) : Option AnalysisResult :=
  match dsp.load file_path with
  | none => none
  | some (y, sr) =>
    let onset_env := dsp.onset_strength y sr
    let tb := dsp.beat_track y sr onset_env
    let hp := dsp.hpss y
    some
      { energy := _calculate_energy (dsp.rms y) (dsp.spectral_centroid y sr) onset_env
        danceability := _calculate_danceability onset_env tb.2 tb.1
        tempo := tb.1
        acousticness := _calculate_acousticness (dsp.spectral_flatness y)
          (dsp.spectral_rolloff y sr)
        valence := _calculate_valence (dsp.chroma_cqt hp.1 sr)
          (dsp.rms hp.1) (dsp.rms hp.2) }

/-- A concrete instance of the collaborator with constant primitives, used
to exercise `extract_features` on an input it can decode. -/
def dspConst : DSP where
  load := fun _ => some ([0, 0], 22050)
  onset_strength := fun _ _ => [0]
  beat_track := fun _ _ _ => (120, [])
  rms := fun _ => [0]
  spectral_centroid := fun _ _ => [0]
  spectral_flatness := fun _ => [0]
  spectral_rolloff := fun _ _ => [0]
  hpss := fun y => (y, y)
  chroma_cqt := fun _ _ => []

/-- A four-value IEEE-style float model, to settle the division-by-zero
behaviour of `_normalize` on a degenerate range, which `ℚ` cannot express. -/
inductive FloatV where
  | fin : ℚ → FloatV
  | nan : FloatV
  | inf : FloatV
  | ninf : FloatV
deriving DecidableEq

/-- IEEE division of two finite floats: `a / 0` is `+inf`, `-inf` or NaN
according to the sign of `a`; otherwise exact. -/
def fdiv (a b : ℚ) : FloatV :=
  if b = 0 then (if 0 < a then .inf else if a < 0 then .ninf else .nan)
  else .fin (a / b)

/-- `np.clip(x, 0, 1) = minimum(maximum(x, 0), 1)` on the float model:
NaN propagates, `+inf` clips to 1, `-inf` clips to 0. -/
def fclip01 : FloatV → FloatV
  | .fin q => .fin (np_clip q 0 1)
  | .nan => .nan
  | .inf => .fin 1
  | .ninf => .fin 0

/-- `_normalize` (features.py line 61) re-embedded with IEEE division and
clip, exposing what the unguarded source line does when `min_val = max_val`. -/
def normalizeF (value min_val max_val : ℚ) : FloatV :=
  fclip01 (fdiv (value - min_val) (max_val - min_val))

/-! Helper lemmas shared by the claim theorems. -/

theorem np_clip01_nonneg (x : ℚ) : 0 ≤ np_clip x 0 1 :=
  le_min (le_max_right x 0) zero_le_one

theorem np_clip01_le_one (x : ℚ) : np_clip x 0 1 ≤ 1 :=
  min_le_right _ _

theorem np_clip01_of_mem {x : ℚ} (h0 : 0 ≤ x) (h1 : x ≤ 1) : np_clip x 0 1 = x := by
  unfold np_clip
  rw [max_eq_left h0, min_eq_left h1]

theorem np_clip01_mono {x y : ℚ} (h : x ≤ y) : np_clip x 0 1 ≤ np_clip y 0 1 :=
  min_le_min (max_le_max h le_rfl) le_rfl

theorem normalize_nonneg (v lo hi : ℚ) : 0 ≤ _normalize v lo hi :=
  np_clip01_nonneg _

theorem normalize_le_one (v lo hi : ℚ) : _normalize v lo hi ≤ 1 :=
  np_clip01_le_one _

theorem normalize_mono (v v' lo hi : ℚ) (hlo : lo < hi) (h : v ≤ v') :
    _normalize v lo hi ≤ _normalize v' lo hi := by
  apply np_clip01_mono
  have hd : (0 : ℚ) < hi - lo := sub_pos.mpr hlo
  exact (div_le_div_iff_of_pos_right hd).mpr (by linarith)

theorem listMean_nonneg {xs : List ℚ} (h : ∀ x ∈ xs, 0 ≤ x) : 0 ≤ listMean xs :=
  div_nonneg (List.sum_nonneg h) (Nat.cast_nonneg _)

theorem np_var_nonneg (xs : List ℚ) : 0 ≤ np_var xs := by
  apply listMean_nonneg
  intro x hx
  simp only [List.mem_map] at hx
  obtain ⟨y, _, rfl⟩ := hx
  positivity

theorem np_mean_nonempty {xs : List ℚ} (h : xs ≠ []) :
    np_mean xs = some (listMean xs) := by
  cases xs with
  | nil => exact absurd rfl h
  | cons a t => rfl

theorem np_mean_some {xs : List ℚ} {m : ℚ} (h : np_mean xs = some m) :
    m = listMean xs := by
  unfold np_mean at h
  split_ifs at h
  exact (Option.some_inj.mp h).symm

theorem pulse_clarity_mem {v : ℚ} (hv : 0 ≤ v) :
    0 ≤ 1 / (1 + v / 50) ∧ 1 / (1 + v / 50) ≤ 1 := by
  have h50 : (0 : ℚ) ≤ v / 50 := div_nonneg hv (by norm_num)
  have hd : (0 : ℚ) < 1 + v / 50 := by linarith
  exact ⟨le_of_lt (by positivity), (div_le_one hd).mpr (by linarith)⟩

theorem tempo_factor_mem (t : ℚ) : 0.5 ≤ tempo_factor t ∧ tempo_factor t ≤ 1 := by
  unfold tempo_factor
  split_ifs <;> norm_num

theorem mode_score_cases (chroma : List (List ℚ)) :
    mode_score chroma = 0.75 ∨ mode_score chroma = 0.35 := by
  simp only [mode_score]
  split_ifs <;> simp

theorem hp_ratio_mem {h p : ℚ} (h0 : 0 ≤ h) (p0 : 0 ≤ p) :
    0 ≤ hp_ratio h p ∧ hp_ratio h p ≤ 1 := by
  unfold hp_ratio
  split_ifs with hs
  · exact ⟨div_nonneg h0 (by linarith), (div_le_one hs).mpr (by linarith)⟩
  · norm_num

theorem ratio_of_mem (h_rms p_rms : List ℚ) (hh : ∀ x ∈ h_rms, 0 ≤ x)
    (hp : ∀ x ∈ p_rms, 0 ≤ x) :
    0 ≤ ratio_of h_rms p_rms ∧ ratio_of h_rms p_rms ≤ 1 := by
  unfold ratio_of
  cases hmh : np_mean h_rms with
  | none => norm_num
  | some h =>
    cases hmp : np_mean p_rms with
    | none => norm_num
    | some p =>
      have h0 : 0 ≤ h := (np_mean_some hmh) ▸ listMean_nonneg hh
      have p0 : 0 ≤ p := (np_mean_some hmp) ▸ listMean_nonneg hp
      exact hp_ratio_mem h0 p0

/-! Claim theorems. -/

/-- C2: for `min < max`, `normalize` equals the clipped linear rescale
`clip((value - min)/(max - min), 0, 1)`; its output lies in `[0, 1]`; it is
monotonically non-decreasing in `value`; it maps `min` to 0 and `max` to 1. -/
theorem normalize_contract (v v' lo hi : ℚ) (h : lo < hi) :
    _normalize v lo hi = np_clip ((v - lo) / (hi - lo)) 0 1
    ∧ 0 ≤ _normalize v lo hi ∧ _normalize v lo hi ≤ 1
    ∧ (v ≤ v' → _normalize v lo hi ≤ _normalize v' lo hi)
    ∧ _normalize lo lo hi = 0 ∧ _normalize hi lo hi = 1 := by
  refine ⟨rfl, normalize_nonneg v lo hi, normalize_le_one v lo hi,
    normalize_mono v v' lo hi h, ?_, ?_⟩
  · unfold _normalize np_clip
    norm_num
  · unfold _normalize
    rw [div_self (ne_of_gt (sub_pos.mpr h))]
    unfold np_clip
    norm_num

/-- Witness for C2 at `(value, min, max) = (0, 0, 2)` and `(2, 0, 2)`. -/
theorem normalize_contract_witness :
    _normalize 0 0 2 = 0 ∧ _normalize 2 0 2 = 1 := by
  have h := normalize_contract 1 1 0 2 (by norm_num)
  exact ⟨h.2.2.2.2.1, h.2.2.2.2.2⟩

/-- C4: with fewer than 2 beat frames, danceability is exactly 0, for any
onset envelope and tempo; a defined result, not an error. -/
theorem danceability_degenerate (onset_env : List ℚ) (beat_frames : List ℕ)
    (tempo : ℚ) (h : beat_frames.length < 2) :
    _calculate_danceability onset_env beat_frames tempo = 0 := by
  unfold _calculate_danceability
  rw [if_pos h]

/-- Witness for C4: a single beat frame yields danceability 0. -/
theorem danceability_degenerate_witness :
    _calculate_danceability [1, 2] [1] 120 = 0 :=
  danceability_degenerate [1, 2] [1] 120 (by norm_num)

/-- C5: the tempo factor inside danceability is 0.5 for tempo < 50 or
tempo > 200, 1.0 on [90, 140], 0.8 otherwise; in particular 0.5 at 49 and
201, 0.8 at 50, 141 and 200, 1.0 at 90 and 140. -/
theorem tempo_factor_buckets (t : ℚ) :
    (t < 50 ∨ 200 < t → tempo_factor t = 0.5)
    ∧ (90 ≤ t ∧ t ≤ 140 → tempo_factor t = 1)
    ∧ (¬(t < 50 ∨ 200 < t) → ¬(90 ≤ t ∧ t ≤ 140) → tempo_factor t = 0.8)
    ∧ tempo_factor 49 = 0.5 ∧ tempo_factor 201 = 0.5
    ∧ tempo_factor 50 = 0.8 ∧ tempo_factor 141 = 0.8 ∧ tempo_factor 200 = 0.8
    ∧ tempo_factor 90 = 1 ∧ tempo_factor 140 = 1 := by
  unfold tempo_factor
  refine ⟨fun h => if_pos h, fun h => ?_, fun h1 h2 => ?_, ?_, ?_, ?_, ?_, ?_, ?_, ?_⟩
  · rw [if_neg (by push_neg; constructor <;> linarith), if_pos h]
  · rw [if_neg h1, if_neg h2]
  all_goals norm_num

/-- Witness for C5 at tempos 49 and 95. -/
theorem tempo_factor_buckets_witness :
    tempo_factor 49 = 0.5 ∧ tempo_factor 95 = 1 :=
  ⟨(tempo_factor_buckets 49).1 (Or.inl (by norm_num)),
   (tempo_factor_buckets 95).2.1 (by norm_num)⟩

/-- C6 counterexample: `_normalize` with `min = max` is NOT guarded.  Under
IEEE semantics the division by zero is performed: the result is NaN at
`value = min` and a value-dependent 0 or 1 otherwise — neither a raised
error nor a single documented constant. -/
theorem normalize_degenerate_cex :
    normalizeF 3 3 3 = FloatV.nan
    ∧ normalizeF 4 3 3 = FloatV.fin 1
    ∧ normalizeF 2 3 3 = FloatV.fin 0 := by
  refine ⟨?_, ?_, ?_⟩ <;> norm_num [normalizeF, fdiv, fclip01, np_clip]

/-- C6 amended: the degenerate range is unguarded — for `min = max` the
division by zero yields 1 above `min`, 0 below, NaN at `min`; under the
precondition `min < max` the division is well-defined and the result is the
finite clipped rescale, so the degenerate case is unreachable. -/
theorem normalize_unguarded :
    (∀ v lo hi : ℚ, lo < hi → normalizeF v lo hi = FloatV.fin (_normalize v lo hi))
    ∧ (∀ w m : ℚ, normalizeF w m m =
        if m < w then FloatV.fin 1 else if w < m then FloatV.fin 0 else FloatV.nan) := by
  constructor
  · intro v lo hi h
    unfold normalizeF fdiv
    rw [if_neg (ne_of_gt (sub_pos.mpr h))]
    rfl
  · intro w m
    unfold normalizeF fdiv
    rw [sub_self, if_pos rfl]
    rcases lt_trichotomy m w with h | h | h
    · rw [if_pos (by linarith : (0 : ℚ) < w - m), if_pos h]
      rfl
    · rw [if_neg (by simp [h]), if_neg (by simp [h]), if_neg (lt_irrefl w ∘ (h ▸ id)),
        if_neg (lt_irrefl w ∘ (h ▸ id))]
      rfl
    · rw [if_neg (by linarith : ¬(0 : ℚ) < w - m), if_pos (by linarith : w - m < 0),
        if_neg (by linarith : ¬m < w), if_pos h]
      rfl

/-- Witness for C6 (amended) at `(1, 0, 2)`. -/
theorem normalize_unguarded_witness :
    normalizeF 1 0 2 = FloatV.fin (_normalize 1 0 2) :=
  normalize_unguarded.1 1 0 2 (by norm_num)

theorem danceability_mem (onset_env : List ℚ) (beat_frames : List ℕ) (tempo : ℚ) :
    0 ≤ _calculate_danceability onset_env beat_frames tempo
    ∧ _calculate_danceability onset_env beat_frames tempo ≤ 1 := by
  unfold _calculate_danceability
  split_ifs with h
  · norm_num
  · have hb0 := normalize_nonneg (listMean (beat_frames.map fun i => onset_env.getD i 0)) 0 3
    have hb1 := normalize_le_one (listMean (beat_frames.map fun i => onset_env.getD i 0)) 0 3
    have hv := np_var_nonneg ((np_diff beat_frames).map fun z => (z : ℚ))
    have hp := pulse_clarity_mem hv
    have ht := tempo_factor_mem tempo
    constructor <;> linarith [hp.1, hp.2, ht.1, ht.2]

theorem valence_mem (chroma : List (List ℚ)) (h_rms p_rms : List ℚ) :
    0 ≤ _calculate_valence chroma h_rms p_rms
    ∧ _calculate_valence chroma h_rms p_rms ≤ 1 := by
  unfold _calculate_valence
  exact ⟨np_clip01_nonneg _, np_clip01_le_one _⟩

/-- C1: for finite measurement series (as produced by the DSP frontend, hence
nonempty), the four bounded scores energy, danceability, acousticness and
valence all lie in `[0, 1]`, including all-zero (silence) and large-amplitude
series. -/
theorem scores_bounded (rms spec_cent onset_env spec_flat spec_roll : List ℚ)
    (beat_frames : List ℕ) (tempo : ℚ) (chroma : List (List ℚ))
    (h_rms p_rms : List ℚ) (h1 : rms ≠ []) (h2 : spec_cent ≠ [])
    (h3 : onset_env ≠ []) (h4 : spec_flat ≠ []) (h5 : spec_roll ≠ []) :
    (∃ e, _calculate_energy rms spec_cent onset_env = some e ∧ 0 ≤ e ∧ e ≤ 1)
    ∧ (0 ≤ _calculate_danceability onset_env beat_frames tempo
        ∧ _calculate_danceability onset_env beat_frames tempo ≤ 1)
    ∧ (∃ a, _calculate_acousticness spec_flat spec_roll = some a ∧ 0 ≤ a ∧ a ≤ 1)
    ∧ (0 ≤ _calculate_valence chroma h_rms p_rms
        ∧ _calculate_valence chroma h_rms p_rms ≤ 1) := by
  refine ⟨?_, danceability_mem onset_env beat_frames tempo, ?_,
    valence_mem chroma h_rms p_rms⟩
  · unfold _calculate_energy
    rw [np_mean_nonempty h1, np_mean_nonempty h2, np_mean_nonempty h3]
    refine ⟨_, rfl, ?_, ?_⟩
    · have a0 := normalize_nonneg (listMean rms) 0 0.3
      have b0 := normalize_nonneg (listMean spec_cent) 500 4000
      have c0 := normalize_nonneg (listMean onset_env) 0 1.5
      linarith
    · have a1 := normalize_le_one (listMean rms) 0 0.3
      have b1 := normalize_le_one (listMean spec_cent) 500 4000
      have c1 := normalize_le_one (listMean onset_env) 0 1.5
      linarith
  · unfold _calculate_acousticness
    rw [np_mean_nonempty h4, np_mean_nonempty h5]
    refine ⟨_, rfl, ?_, ?_⟩ <;> unfold acousticness_of_means
    · have a1 := normalize_le_one (listMean spec_flat) 0 0.1
      have b1 := normalize_le_one (listMean spec_roll) 1000 7000
      linarith
    · have a0 := normalize_nonneg (listMean spec_flat) 0 0.1
      have b0 := normalize_nonneg (listMean spec_roll) 1000 7000
      linarith

/-- Witness for C1 on singleton zero series (silence). -/
theorem scores_bounded_witness :
    (∃ e, _calculate_energy [0] [0] [0] = some e ∧ 0 ≤ e ∧ e ≤ 1)
    ∧ (0 ≤ _calculate_danceability [0] [] 120 ∧ _calculate_danceability [0] [] 120 ≤ 1)
    ∧ (∃ a, _calculate_acousticness [0] [0] = some a ∧ 0 ≤ a ∧ a ≤ 1)
    ∧ (0 ≤ _calculate_valence [] [0] [0] ∧ _calculate_valence [] [0] [0] ≤ 1) :=
  scores_bounded [0] [0] [0] [0] [0] [] 120 [] [0] [0]
    (List.cons_ne_nil 0 []) (List.cons_ne_nil 0 []) (List.cons_ne_nil 0 [])
    (List.cons_ne_nil 0 []) (List.cons_ne_nil 0 [])

/-- C3: `extract_features` fails (returns no record, the source's `None`)
exactly when decoding fails, and on a successful decode it produces a
five-field `AnalysisResult`. -/
theorem extract_features_contract (dsp : DSP) (path : String) :
    (extract_features dsp path = none ↔ dsp.load path = none)
    ∧ (∀ y sr, dsp.load path = some (y, sr) →
        ∃ r : AnalysisResult, extract_features dsp path = some r) := by
  unfold extract_features
  cases h : dsp.load path with
  | none => simp
  | some p =>
    rcases p with ⟨y, sr⟩
    refine ⟨by simp, fun y' sr' h' => ⟨_, rfl⟩⟩

/-- Witness for C3: a collaborator that decodes gives a result record. -/
theorem extract_features_contract_witness :
    ∃ r : AnalysisResult, extract_features dspConst "song.wav" = some r :=
  (extract_features_contract dspConst "song.wav").2 [0, 0] 22050 rfl

set_option maxRecDepth 10000 in
/-- C7: the mode score is always one of 0.75 (major) and 0.35 (minor);
synthetic chroma with all energy at the tonic and its major third yields
0.75, at the tonic and its minor third 0.35 — shown both at tonic pitch
class 0 (multi-frame rows, exercising the per-class summation) and at tonic
pitch class 2 (exercising the argmax rotation). -/
theorem mode_selection :
    (∀ chroma : List (List ℚ), mode_score chroma = 0.75 ∨ mode_score chroma = 0.35)
    ∧ mode_score [[1, 1], [0, 0], [0, 0], [0, 0], [1, 0], [0, 0], [0, 0], [0, 0],
        [0, 0], [0, 0], [0, 0], [0, 0]] = 0.75
    ∧ mode_score [[1, 1], [0, 0], [0, 0], [1, 0], [0, 0], [0, 0], [0, 0], [0, 0],
        [0, 0], [0, 0], [0, 0], [0, 0]] = 0.35
    ∧ mode_score [[0], [0], [2], [0], [0], [0], [1], [0], [0], [0], [0], [0]] = 0.75
    ∧ mode_score [[0], [0], [2], [0], [0], [1], [0], [0], [0], [0], [0], [0]] = 0.35 := by
  refine ⟨mode_score_cases, ?_, ?_, ?_, ?_⟩ <;>
    norm_num [mode_score, np_argmax, np_roll_neg, List.enum, List.enumFrom,
      List.foldl, List.range, List.range.loop, List.getD]

/-- C8: acousticness is monotonically decreasing (non-increasing) in the mean
spectral flatness and in the mean spectral rolloff, holding the other fixed;
the score is `0.6 * (1 - normalize(meanFlatness, 0, 0.1))
+ 0.4 * (1 - normalize(meanRolloff, 1000, 7000))`, evaluated at the means of
the two series. -/
theorem acousticness_antitone :
    (∀ m_flat m_flat' m_roll : ℚ, m_flat ≤ m_flat' →
      acousticness_of_means m_flat' m_roll ≤ acousticness_of_means m_flat m_roll)
    ∧ (∀ m_flat m_roll m_roll' : ℚ, m_roll ≤ m_roll' →
      acousticness_of_means m_flat m_roll' ≤ acousticness_of_means m_flat m_roll)
    ∧ (∀ m_flat m_roll : ℚ, acousticness_of_means m_flat m_roll
        = 0.6 * (1 - _normalize m_flat 0 0.1) + 0.4 * (1 - _normalize m_roll 1000 7000))
    ∧ (∀ spec_flat spec_roll : List ℚ, spec_flat ≠ [] → spec_roll ≠ [] →
      _calculate_acousticness spec_flat spec_roll
        = some (acousticness_of_means (listMean spec_flat) (listMean spec_roll))) := by
  refine ⟨?_, ?_, ?_, ?_⟩
  · intro a b r h
    unfold acousticness_of_means
    have := normalize_mono a b 0 0.1 (by norm_num) h
    linarith
  · intro f a b h
    unfold acousticness_of_means
    have := normalize_mono a b 1000 7000 (by norm_num) h
    linarith
  · intro f r
    unfold acousticness_of_means
    ring
  · intro fs rs hf hr
    unfold _calculate_acousticness
    rw [np_mean_nonempty hf, np_mean_nonempty hr]

/-- Witness for C8: lower flatness and lower rolloff give a score at least
as high. -/
theorem acousticness_antitone_witness :
    acousticness_of_means 1 0 ≤ acousticness_of_means 0 0
    ∧ acousticness_of_means 0 1 ≤ acousticness_of_means 0 0 :=
  ⟨acousticness_antitone.1 0 1 0 (by norm_num),
   acousticness_antitone.2.1 0 0 1 (by norm_num)⟩

/-- C9 counterexample: on three empty series the energy scorer does not
return the defined score 0; the NumPy mean of an empty array is NaN
(modelled `none`) and NaN propagates to the output, while the value the
claim predicts for zero means is indeed 0. -/
theorem energy_empty_cex :
    _calculate_energy [] [] [] = none
    ∧ _calculate_energy [] [] [] ≠ some 0
    ∧ _normalize 0 0 0.3 * 0.5 + _normalize 0 500 4000 * 0.25
        + _normalize 0 0 1.5 * 0.25 = 0 := by
  refine ⟨rfl, ?_, ?_⟩
  · simp [_calculate_energy, np_mean]
  · norm_num [_normalize, np_clip]

/-- C9 amended: the energy scorer is a defined total function of the three
series means for nonempty series (the means of `None`/empty series are not
zero but NaN/errors); on nonempty input it equals the weighted sum of the
three normalized means with weights 0.5, 0.25, 0.25. -/
theorem energy_total_on_nonempty (rms spec_cent onset_env : List ℚ)
    (h1 : rms ≠ []) (h2 : spec_cent ≠ []) (h3 : onset_env ≠ []) :
    _calculate_energy rms spec_cent onset_env
      = some (_normalize (listMean rms) 0 0.3 * 0.5
        + _normalize (listMean spec_cent) 500 4000 * 0.25
        + _normalize (listMean onset_env) 0 1.5 * 0.25) := by
  unfold _calculate_energy
  rw [np_mean_nonempty h1, np_mean_nonempty h2, np_mean_nonempty h3]

/-- Witness for C9 (amended) on singleton zero series. -/
theorem energy_total_on_nonempty_witness :
    _calculate_energy [0] [0] [0]
      = some (_normalize (listMean [0]) 0 0.3 * 0.5
        + _normalize (listMean [0]) 500 4000 * 0.25
        + _normalize (listMean [0]) 0 1.5 * 0.25) :=
  energy_total_on_nonempty [0] [0] [0] (List.cons_ne_nil 0 [])
    (List.cons_ne_nil 0 []) (List.cons_ne_nil 0 [])

/-- C10: with non-negative RMS series (RMS values are non-negative by
nature), the valence score lies in `[0.245, 0.825]`: the mode score is 0.75
or 0.35, the ratio lies in `[0, 1]` (0.5 silence fallback included), so the
combination `0.7 * mode + 0.3 * ratio` is already inside `(0, 1)` and the
final clip leaves the value unchanged. -/
theorem valence_range (chroma : List (List ℚ)) (h_rms p_rms : List ℚ)
    (hh : ∀ x ∈ h_rms, 0 ≤ x) (hp : ∀ x ∈ p_rms, 0 ≤ x) :
    _calculate_valence chroma h_rms p_rms
      = mode_score chroma * 0.7 + ratio_of h_rms p_rms * 0.3
    ∧ 0.245 ≤ _calculate_valence chroma h_rms p_rms
    ∧ _calculate_valence chroma h_rms p_rms ≤ 0.825 := by
  have hm := mode_score_cases chroma
  have hr := ratio_of_mem h_rms p_rms hh hp
  have h1 : 0.245 ≤ mode_score chroma * 0.7 + ratio_of h_rms p_rms * 0.3 := by
    rcases hm with h | h <;> rw [h] <;> linarith [hr.1, hr.2]
  have h2 : mode_score chroma * 0.7 + ratio_of h_rms p_rms * 0.3 ≤ 0.825 := by
    rcases hm with h | h <;> rw [h] <;> linarith [hr.1, hr.2]
  have heq : _calculate_valence chroma h_rms p_rms
      = mode_score chroma * 0.7 + ratio_of h_rms p_rms * 0.3 := by
    unfold _calculate_valence
    exact np_clip01_of_mem (by linarith) (by linarith)
  exact ⟨heq, by rw [heq]; exact h1, by rw [heq]; exact h2⟩

/-- Witness for C10 on empty series (the 0.5 fallback path). -/
theorem valence_range_witness :
    0.245 ≤ _calculate_valence [] [] [] ∧ _calculate_valence [] [] [] ≤ 0.825 :=
  ⟨(valence_range [] [] [] (by simp) (by simp)).2.1,
   (valence_range [] [] [] (by simp) (by simp)).2.2⟩

end SpotifyAudioFeatures
